import Mathlib

/-!
Shallow embedding of the graphdb-orient connector (src/index.js and its
variant source files) and verification of its specified behaviour.

The connector is callback-based JavaScript.  We model each exported
operation as a pure function on an explicit graph state plus a backend
oracle: the backend client (orientdb / orienteer, an external library)
is abstracted as a record of response functions, and the network calls
an operation makes are collected in an `events` trace, in program order.
JavaScript `(err, result)` callbacks become explicit `err`/result fields
in the output structures; JS falsiness on strings is modelled by
`truthy` below (absent or empty string is falsy).
-/

namespace GraphdbOrient

/-- A JavaScript error value delivered to a callback: the source passes
either a plain message string (e.g. `errors.NOT_CONNECTED`) or an
`Error` object wrapping a message. -/
inductive ErrVal where
  | str (message : String)
  | errObj (message : String)
  deriving DecidableEq, Repr

/-- A record returned by the backend for a SELECT; the only field the
connector ever reads off a result record is `id` (`results[0].id`,
`existing.id`). -/
structure OrientRecord where
  id : String
  deriving DecidableEq, Repr

/-- One network interaction with the backend, in the order issued. -/
inductive NetEvent where
  | serverConnect
  | dbOpen
  | dbCreate
  | createClass (className baseClass : String)
  | cmd (statement : String)
  deriving DecidableEq, Repr

/-- JS truthiness for an optional string argument: `undefined`/missing
and the empty string are falsy, every other string is truthy. -/
def truthy : Option String → Bool
  | none => false
  | some s => !s.isEmpty

/-- The `errors` table of src/index.js. -/
def NOT_CONNECTED : String := "Unable to perform operation on disconnected db"

/-- The backend database handle (the orientdb `GraphDb` object as the
connector uses it): a generic command runner (`db.command`, each command
answering with an error or a list of records) and the `createClass`
client call used by `activateType` (answering an error or success). -/
structure Backend where
  exec : String → Except ErrVal (List OrientRecord)
  createClass : String → String → Option ErrVal

/-- Server-level connection options (`opts.server`): only `host`/`port`
are read (and only for debug output). -/
structure ServerOpts where
  host : String := ""
  port : Nat := 0
  deriving DecidableEq, Repr

/-- Database options (`opts.db`): the name plus credentials. -/
structure DbOpts where
  name : String := ""
  deriving DecidableEq, Repr

/-- The `opts` argument of `connect`. -/
structure ConnectOpts where
  server : Option ServerOpts := none
  db : Option DbOpts := none

/-- The graph object the connector mutates: `graph._server` and
`graph._db` are the only members it touches. -/
structure Graph where
  _server : Option ServerOpts := none
  _db : Option Backend := none

/- The query templates of src/index.js, rendered directly (underscore
`_.template` interpolation with the parameter mapping each call site
supplies). -/

namespace templates

def selectById (type id : String) : String :=
  "SELECT FROM " ++ type ++ " WHERE id = \"" ++ id ++ "\""

def selectEdge (type sourceId targetId : String) : String :=
  "SELECT FROM " ++ type ++ " WHERE in.id = \"" ++ sourceId ++
    "\" AND out.id = \"" ++ targetId ++ "\""

def update (type sqlsets id : String) : String :=
  "UPDATE " ++ type ++ " " ++ sqlsets ++ " WHERE id = \"" ++ id ++ "\""

def vertexCreate (type sqlsets : String) : String :=
  "CREATE VERTEX " ++ type ++ " " ++ sqlsets

def edgeCreate (type sourceType sourceId targetType targetId sqlsets : String) : String :=
  "CREATE EDGE " ++ type ++ " FROM (SELECT FROM " ++ sourceType ++
    " WHERE id = \"" ++ sourceId ++ "\") TO (SELECT FROM " ++ targetType ++
    " WHERE id = \"" ++ targetId ++ "\") " ++ sqlsets

end templates

/-- A node or edge entity as the connector receives it: an optional type
name and an optional data mapping (an ordered list of field/value
pairs, values already rendered as strings). -/
structure Node where
  type : Option String := none
  data : Option (List (String × String)) := none
  deriving DecidableEq, Repr

/-- An edge endpoint reference (`source` / `target`): `{ id, type }`. -/
structure EndPoint where
  id : String := ""
  type : String := ""
  deriving DecidableEq, Repr

/-- A type definition handed to the activation operations. -/
structure TypeDef where
  type : String
  active : Bool := false
  deriving DecidableEq, Repr

/-- The JS defaulting idiom `t || dflt` on an optional string argument:
the default when the argument is absent or falsy. -/
def orDefault (t : Option String) (dflt : String) : String :=
  if truthy t then t.getD "" else dflt

/-- `_.omit(data, keys)`: the data mapping with the listed keys removed
(for an empty key list, a copy of the mapping). -/
def omitKeys (data : List (String × String)) (keys : List String) : List (String × String) :=
  data.filter (fun kv => !(keys.contains kv.1))

/-- `node.data.id` as the source reads it off the data mapping and as
underscore templates render it (a missing field renders as the empty
string). -/
def dataId (data : List (String × String)) : String :=
  ((data.find? (fun kv => kv.1 == "id")).map Prod.snd).getD ""

/-- Modelled from the spec: the Data Marshaller (spec section 4.2) —
`orientParser.hashToSQLSets` / `orienteer.objectTo('SET', ...)` — lives
in the external backend client library, not in this repository.  Per the
spec it renders the remaining key/value pairs as a SET clause and
renders nothing for an empty mapping. -/
def hashToSQLSets (data : List (String × String)) : String :=
  match data with
  | [] => ""
  | _ => "SET " ++ String.intercalate ", "
      (data.map (fun kv => kv.1 ++ " = \"" ++ kv.2 ++ "\""))

/-- Output of an operation whose callback receives `(err, results)` with
a full result list (`findById`, `find`). -/
structure QueryOut where
  err : Option ErrVal := none
  results : Option (List OrientRecord) := none
  events : List NetEvent := []
  deriving Repr

/-- Output of an operation whose callback receives a single record
(`getEdge`, `getNode`): the source passes `(results || [])[0]`. -/
structure SingleOut where
  err : Option ErrVal := none
  result : Option OrientRecord := none
  events : List NetEvent := []
  deriving Repr

/-- `findById(graph, id, className, callback)` of src/index.js: renders
`selectById`, aborts with `errors.NOT_CONNECTED` when no db handle is
present, otherwise sends the command and passes the backend's
`(err, results)` straight through. -/
def findById (graph : Graph) (id className : String) : QueryOut :=
  let command := templates.selectById className id
  match graph._db with
  | none => { err := some (.str NOT_CONNECTED) }
  | some db =>
    match db.exec command with
    | .error e => { err := some e, events := [.cmd command] }
    | .ok rs => { results := some rs, events := [.cmd command] }

/-- The `searchParams` argument of `find`. -/
structure SearchParams where
  id : Option String := none
  type : Option String := none

/-- `find(graph, searchParams, opts, callback)` of src/index.js: id+type
does a direct typed lookup; id alone probes `OGraphVertex` and falls
back to `OGraphEdge` only when the vertex probe returned no error and
no results; otherwise the callback gets `(null, [])`. -/
def find (graph : Graph) (searchParams : SearchParams) : QueryOut :=
  if truthy searchParams.id && truthy searchParams.type then
    findById graph (searchParams.id.getD "") (searchParams.type.getD "")
  else if truthy searchParams.id then
    let firstOut := findById graph (searchParams.id.getD "") "OGraphVertex"
    if firstOut.err.isSome || (firstOut.results.getD []).length > 0 then
      firstOut
    else
      let secondOut := findById graph (searchParams.id.getD "") "OGraphEdge"
      { secondOut with events := firstOut.events ++ secondOut.events }
  else
    { err := none, results := some [], events := [] }

/-- `getEdge(graph, source, target, edgeType, callback)` of src/index.js:
renders `selectEdge` with `edgeType || 'OGraphEdge'`, aborts with
`errors.NOT_CONNECTED` when no db handle exists, otherwise sends the
command and passes `(err, (results || [])[0])` to the callback. -/
def getEdge (graph : Graph) (source target : EndPoint) (edgeType : Option String) : SingleOut :=
  let command := templates.selectEdge
    (orDefault edgeType "OGraphEdge") source.id target.id
  match graph._db with
  | none => { err := some (.str NOT_CONNECTED) }
  | some db =>
    match db.exec command with
    | .error e => { err := some e, events := [.cmd command] }
    | .ok rs => { result := rs.head?, events := [.cmd command] }

/-- `getById(graph, id, className, callback)` of the repository's
orientdb-variant source file (src/unnamed/part_001), which exports the
`getNode` operation the main file lacks: renders `selectById`, aborts
with `errors.NOT_CONNECTED` without a db handle, otherwise delivers
`(err, (results || [])[0])`. -/
def getById (graph : Graph) (id className : String) : SingleOut :=
  let command := templates.selectById className id
  match graph._db with
  | none => { err := some (.str NOT_CONNECTED) }
  | some db =>
    match db.exec command with
    | .error e => { err := some e, events := [.cmd command] }
    | .ok rs => { result := rs.head?, events := [.cmd command] }

/-- `getNode(graph, id, nodeType, callback)` (src/unnamed/part_001):
`getById` under `nodeType || 'OGraphVertex'`. -/
def getNode (graph : Graph) (id : String) (nodeType : Option String) : SingleOut :=
  getById graph id (orDefault nodeType "OGraphVertex")

/-- Output of `saveNode`: the callback error, the issued commands, and
the final state of the caller's `node` object (which the source mutates
in place via `node.type = node.type || 'OGraphVertex'`). -/
structure SaveOut where
  err : Option ErrVal := none
  events : List NetEvent := []
  node : Node
  deriving Repr

/-- `saveNode(graph, node, callback)` of src/index.js: not-connected and
missing-data guards, in-place defaulting of `node.type`, a `findById`
lookup under `(node.data.id, node.type)`, then either `vertexCreate`
over the full data mapping (`_.omit(data, [])`, no hit) or `update`
over the id-stripped mapping keyed by `results[0].id` (hit).  In the
source, a lookup error reaches `if (err) return callback(err)` (the
intervening var initializers would in fact throw on `results.length`
when `results` is undefined; no claim exercises that path, and we model
the error being surfaced). -/
def saveNode (graph : Graph) (node : Node) : SaveOut :=
  match graph._db with
  | none => { err := some (.errObj NOT_CONNECTED), node := node }
  | some db =>
    match node.data with
    | none => { err := some (.errObj "A node object is require for a save operation"), node := node }
    | some data =>
      let node2 : Node :=
        { node with type := some (orDefault node.type "OGraphVertex") }
      let ntype := node2.type.getD ""
      let lookup := findById graph (dataId data) ntype
      match lookup.err with
      | some e => { err := some e, events := lookup.events, node := node2 }
      | none =>
        let rs := lookup.results.getD []
        let hit := rs.length > 0
        let data2 := omitKeys data (if hit then ["id"] else [])
        let commandText :=
          if hit then
            templates.update ntype (hashToSQLSets data2) ((rs.head?.map OrientRecord.id).getD "")
          else
            templates.vertexCreate ntype (hashToSQLSets data2)
        match db.exec commandText with
        | .error e => { err := some e, events := lookup.events ++ [.cmd commandText], node := node2 }
        | .ok _ => { err := none, events := lookup.events ++ [.cmd commandText], node := node2 }

/-- Output of `saveEdge`: the callback error and the issued commands. -/
structure SaveEdgeOut where
  err : Option ErrVal := none
  events : List NetEvent := []
  deriving Repr

/-- `saveEdge(graph, source, target, entity, callback)` of src/index.js:
not-connected and missing-data guards, a `getEdge` lookup keyed on
`(entity.type, source.id, target.id)`, then `update` (when the single
`existing` record is truthy) or `edgeCreate` (otherwise); the command
text is rendered before the `if (err) return callback(err)` check, so a
lookup error surfaces without a second command being sent. -/
def saveEdge (graph : Graph) (source target : EndPoint) (entity : Node) : SaveEdgeOut :=
  match graph._db with
  | none => { err := some (.errObj NOT_CONNECTED) }
  | some db =>
    match entity.data with
    | none => { err := some (.errObj "A valid entity is require for a save operation") }
    | some data =>
      let lookup := getEdge graph source target entity.type
      let existing := lookup.result
      let data2 := omitKeys data (if existing.isSome then ["id"] else [])
      let etype := orDefault entity.type "OGraphEdge"
      let commandText :=
        if existing.isSome then
          templates.update etype (hashToSQLSets data2) ((existing.map OrientRecord.id).getD "")
        else
          templates.edgeCreate etype source.type source.id target.type target.id
            (hashToSQLSets data2)
      match lookup.err with
      | some e => { err := some e, events := lookup.events }
      | none =>
        match db.exec commandText with
        | .error e => { err := some e, events := lookup.events ++ [.cmd commandText] }
        | .ok _ => { err := none, events := lookup.events ++ [.cmd commandText] }

/-- `commands.series(commands, targetDb, callback)` of src/index.js: the
statements are mapped to bound `targetDb.command` calls and handed to
the async library's `series` combinator, whose documented semantics —
run the tasks one after another in the given order, stop at the first
task that errors and surface that error to the final callback — are
modelled directly here.  The second component is the list of commands
actually sent, in the order sent. -/
def seriesRun (db : Backend) : List String → Option ErrVal × List NetEvent
  | [] => (none, [])
  | command :: rest =>
    match db.exec command with
    | .error e => (some e, [.cmd command])
    | .ok _ =>
      let out := seriesRun db rest
      (out.1, .cmd command :: out.2)

/-- Output of `activateType`: the callback error, the final state of the
caller's `definition` object, and the backend interactions issued. -/
structure ActivateOut where
  err : Option ErrVal := none
  definition : TypeDef
  events : List NetEvent := []
  deriving Repr

/-- `activateType(graph, definition, baseClass, callback)` of
src/index.js: not-connected guard, then `db.createClass(className,
baseClass)`.  On a createClass error the definition is flagged
`active = true` and the callback fires with no error; on success the
`CREATE PROPERTY`/`CREATE INDEX` pair runs through `commands.series`
and its outcome is the callback's outcome (the definition untouched). -/
def activateType (graph : Graph) (definition : TypeDef) (baseClass : String) : ActivateOut :=
  let className := definition.type
  match graph._db with
  | none => { err := some (.str NOT_CONNECTED), definition := definition }
  | some db =>
    match db.createClass className baseClass with
    | some _ =>
      { err := none, definition := { definition with active := true },
        events := [.createClass className baseClass] }
    | none =>
      let out := seriesRun db
        ["CREATE PROPERTY " ++ className ++ ".id STRING",
         "CREATE INDEX " ++ className ++ ".id UNIQUE"]
      { err := out.1, definition := definition,
        events := .createClass className baseClass :: out.2 }

/-- `activateNodeType(graph, definition, callback)` of src/index.js. -/
def activateNodeType (graph : Graph) (definition : TypeDef) : ActivateOut :=
  activateType graph definition "OGraphVertex"

/-- `activateEdgeType(graph, definition, callback)` of src/index.js. -/
def activateEdgeType (graph : Graph) (definition : TypeDef) : ActivateOut :=
  activateType graph definition "OGraphEdge"

/-- The backend client's responses to the lifecycle calls `connect` makes:
the server-level connect, the first `db.open`, the `db.create`/`db.open`
fallback pair, and the db handle that `new orientdb.GraphDb(...)`
yields. -/
structure ConnectBackend where
  serverConnect : Option ErrVal
  openFirst : Option ErrVal
  createDb : Option ErrVal
  openSecond : Option ErrVal
  dbHandle : Backend

/-- Output of `connect`: the callback error, the resulting graph object,
and the network calls made. -/
structure ConnectOut where
  err : Option ErrVal := none
  graph : Graph
  events : List NetEvent := []

/-- `connect(graph, opts, callback)` of src/index.js: missing
`opts.server` or `opts.db` fails immediately with a descriptive error
before any network call; otherwise `graph._server` is assigned and the
server connected; on server-connect success `graph._db` is assigned
(before any open attempt) and the db opened, with an open failure
triggering the `async.series([db.create, db.open])` fallback whose
outcome becomes the callback's outcome. -/
def connect (graph : Graph) (opts : Option ConnectOpts) (be : ConnectBackend) : ConnectOut :=
  let opts := opts.getD {}
  match opts.server with
  | none =>
    { err := some (.errObj "server connection details required to use orientdb connector"),
      graph := graph }
  | some srv =>
    match opts.db with
    | none =>
      { err := some (.errObj "db name, username and password require to use orientdb connector"),
        graph := graph }
    | some _ =>
      let graph2 : Graph := { graph with _server := some srv }
      match be.serverConnect with
      | some e => { err := some e, graph := graph2, events := [.serverConnect] }
      | none =>
        let graph3 : Graph := { graph2 with _db := some be.dbHandle }
        match be.openFirst with
        | none => { err := none, graph := graph3, events := [.serverConnect, .dbOpen] }
        | some _ =>
          match be.createDb with
          | some e =>
            { err := some e, graph := graph3,
              events := [.serverConnect, .dbOpen, .dbCreate] }
          | none =>
            match be.openSecond with
            | some e =>
              { err := some e, graph := graph3,
                events := [.serverConnect, .dbOpen, .dbCreate, .dbOpen] }
            | none =>
              { err := none, graph := graph3,
                events := [.serverConnect, .dbOpen, .dbCreate, .dbOpen] }

/-- `close(graph, callback)` of src/index.js: a no-op success when no db
handle exists; otherwise the db is closed and `graph._db` cleared. -/
def close (graph : Graph) : Option ErrVal × Graph :=
  match graph._db with
  | none => (none, graph)
  | some _ => (none, { graph with _db := none })

/-! Concrete fixtures used by witnesses and counterexamples. -/

/-- A disconnected graph object (no `_db`, no `_server`). -/
def g0 : Graph := {}

/-- A backend on which every command succeeds with an empty result and
`createClass` succeeds (a fresh database). -/
def freshDb : Backend :=
  { exec := fun _ => .ok [], createClass := fun _ _ => none }

/-- A graph connected to `freshDb`. -/
def freshGraph : Graph := { _db := some freshDb }

/-- A backend on which `createClass` fails (the class already exists)
while plain commands succeed. -/
def classExistsDb : Backend :=
  { exec := fun _ => .ok [],
    createClass := fun _ _ => some (.str "class already exists") }

/-- A graph connected to `classExistsDb`. -/
def classExistsGraph : Graph := { _db := some classExistsDb }

/-! Helper lemmas about the marshalling helpers. -/

/-- `_.omit` with no keys returns the data mapping unchanged. -/
theorem omitKeys_nil (data : List (String × String)) : omitKeys data [] = data := by
  simp [omitKeys]

/-- `_.omit(data, [k])` leaves no pair keyed `k` in the result. -/
theorem not_mem_omitKeys (data : List (String × String)) (k : String) :
    k ∉ (omitKeys data [k]).map Prod.fst := by
  intro hk
  rcases List.mem_map.1 hk with ⟨kv, hmem, hfst⟩
  rcases List.mem_filter.1 hmem with ⟨_, hp⟩
  simp [hfst] at hp

/-! Claim theorems. -/

/-- C1: for a type activation with a live connection whose create-class
call fails (the class already exists), the operation succeeds: the
callback fires with no error, `definition.active` is set true, the only
backend interaction is the createClass attempt (no create-property /
create-index command is issued), and activating the returned definition
again under the same conditions succeeds again with `active` still
true. -/
theorem activate_already_exists_treated_as_success
    (graph : Graph) (db : Backend) (d : TypeDef) (baseClass : String) (e : ErrVal)
    (hdb : graph._db = some db)
    (hfail : db.createClass d.type baseClass = some e) :
    (activateType graph d baseClass).err = none ∧
    (activateType graph d baseClass).definition.active = true ∧
    (activateType graph d baseClass).events = [.createClass d.type baseClass] ∧
    (activateType graph (activateType graph d baseClass).definition baseClass).err = none ∧
    (activateType graph (activateType graph d baseClass).definition baseClass).definition.active
      = true := by
  simp [activateType, hdb, hfail]

/-- Witness for C1: activating `Person` against a backend that reports
the class as already existing succeeds twice with `active = true`. -/
theorem activate_already_exists_treated_as_success_witness :
    (activateType classExistsGraph ⟨"Person", false⟩ "OGraphVertex").err = none ∧
    (activateType classExistsGraph ⟨"Person", false⟩ "OGraphVertex").definition.active = true ∧
    (activateType classExistsGraph ⟨"Person", false⟩ "OGraphVertex").events
      = [.createClass "Person" "OGraphVertex"] ∧
    (activateType classExistsGraph
      (activateType classExistsGraph ⟨"Person", false⟩ "OGraphVertex").definition
      "OGraphVertex").err = none ∧
    (activateType classExistsGraph
      (activateType classExistsGraph ⟨"Person", false⟩ "OGraphVertex").definition
      "OGraphVertex").definition.active = true :=
  activate_already_exists_treated_as_success classExistsGraph classExistsDb
    ⟨"Person", false⟩ "OGraphVertex" (.str "class already exists") rfl rfl

/-- C3 counterexample: on a fresh backend (createClass succeeds, the
property/index commands succeed) the activation succeeds, yet the
definition's `active` flag is still `false` afterwards — the fresh
creation path of `activateType` never sets it. -/
theorem fresh_activation_leaves_active_false :
    (activateType freshGraph ⟨"Person", false⟩ "OGraphVertex").err = none ∧
    (activateType freshGraph ⟨"Person", false⟩ "OGraphVertex").definition.active = false :=
  ⟨rfl, rfl⟩

/-- C3 (amended): `definition.active` is only ever raised, never reset:
after any activation it is either true or unchanged; a definition that
was already active stays active; on the already-exists (createClass
error) path it becomes true and the call succeeds; on the fresh
creation path the definition is left completely unchanged. -/
theorem activate_active_flag_monotone
    (graph : Graph) (d : TypeDef) (baseClass : String) :
    ((activateType graph d baseClass).definition.active = true ∨
      (activateType graph d baseClass).definition.active = d.active) ∧
    (d.active = true → (activateType graph d baseClass).definition.active = true) ∧
    (∀ db, graph._db = some db → (db.createClass d.type baseClass).isSome = true →
      (activateType graph d baseClass).err = none ∧
      (activateType graph d baseClass).definition.active = true) ∧
    (∀ db, graph._db = some db → db.createClass d.type baseClass = none →
      (activateType graph d baseClass).definition = d) := by
  refine ⟨?_, ?_, ?_, ?_⟩
  · cases hg : graph._db with
    | none => simp [activateType, hg]
    | some db =>
      cases hc : db.createClass d.type baseClass with
      | none => simp [activateType, hg, hc]
      | some e => simp [activateType, hg, hc]
  · intro ha
    cases hg : graph._db with
    | none => simp [activateType, hg, ha]
    | some db =>
      cases hc : db.createClass d.type baseClass with
      | none => simp [activateType, hg, hc, ha]
      | some e => simp [activateType, hg, hc]
  · intro db hg hc
    cases hcc : db.createClass d.type baseClass with
    | none => rw [hcc] at hc; simp at hc
    | some e => simp [activateType, hg, hcc]
  · intro db hg hc
    simp [activateType, hg, hc]

/-- Witness for C3 (amended): on the already-exists backend the flag
flips to true; on the fresh backend the definition comes back
unchanged. -/
theorem activate_active_flag_monotone_witness :
    ((activateType classExistsGraph ⟨"Knows", false⟩ "OGraphEdge").err = none ∧
      (activateType classExistsGraph ⟨"Knows", false⟩ "OGraphEdge").definition.active = true) ∧
    (activateType freshGraph ⟨"Knows", false⟩ "OGraphEdge").definition = ⟨"Knows", false⟩ :=
  ⟨(activate_active_flag_monotone classExistsGraph ⟨"Knows", false⟩ "OGraphEdge").2.2.1
      classExistsDb rfl rfl,
    (activate_active_flag_monotone freshGraph ⟨"Knows", false⟩ "OGraphEdge").2.2.2
      freshDb rfl rfl⟩

/-- C8: the series command runner sends the statements in program order
and stops at the first failure: when every statement succeeds, all are
sent in order; when the statements are a successful prefix followed by
a failing statement, exactly the prefix plus the failing statement are
sent (nothing after it), and the failing statement's error is the one
surfaced. -/
theorem seriesRun_order_and_first_failure (db : Backend) :
    (∀ stmts, (∀ s ∈ stmts, ∃ rs, db.exec s = .ok rs) →
      seriesRun db stmts = (none, stmts.map NetEvent.cmd)) ∧
    (∀ pre s post e, (∀ t ∈ pre, ∃ rs, db.exec t = .ok rs) →
      db.exec s = .error e →
      seriesRun db (pre ++ s :: post) = (some e, (pre ++ [s]).map NetEvent.cmd)) := by
  constructor
  · intro stmts h
    induction stmts with
    | nil => rfl
    | cons a rest ih =>
      obtain ⟨rs, hrs⟩ := h a (by simp)
      simp [seriesRun, hrs, ih (fun t ht => h t (by simp [ht]))]
  · intro pre
    induction pre with
    | nil =>
      intro s post e _ hs
      simp [seriesRun, hs]
    | cons a rest ih =>
      intro s post e hpre hs
      obtain ⟨rs, hrs⟩ := hpre a (by simp)
      simp [seriesRun, hrs, ih s post e (fun t ht => hpre t (by simp [ht])) hs]

/-- A backend on which the statement `"A"` fails and everything else
succeeds. -/
def failADb : Backend :=
  { exec := fun s => if s = "A" then .error (.str "error from A") else .ok [],
    createClass := fun _ _ => none }

/-- Witness for C8: running `["A", "B"]` where `"A"` fails sends only
`"A"` and surfaces `"A"`'s error; `"B"` is never executed. -/
theorem seriesRun_order_and_first_failure_witness :
    seriesRun failADb ["A", "B"] = (some (.str "error from A"), [.cmd "A"]) :=
  (seriesRun_order_and_first_failure failADb).2 [] "A" ["B"] (.str "error from A")
    (by simp) (by simp [failADb])

/-- Valid connection options (both `server` and `db` present). -/
def validOpts : ConnectOpts := { server := some {}, db := some {} }

/-- A connect-time backend where the server connect succeeds but both
the first `db.open` and the `db.create` fallback fail. -/
def openFailBackend : ConnectBackend :=
  { serverConnect := none, openFirst := some (.errObj "cannot open db"),
    createDb := some (.errObj "cannot create db"), openSecond := none,
    dbHandle := freshDb }

/-- C2 counterexample: a `connect` whose database open and create both
fail completes with an error, yet leaves `graph._db` set — the handle
is exposed despite the failure, so subsequent data operations do not
fail with the not-connected error. -/
theorem failed_connect_exposes_handle :
    (connect g0 (some validOpts) openFailBackend).err = some (.errObj "cannot create db") ∧
    (connect g0 (some validOpts) openFailBackend).graph._db.isSome = true ∧
    (saveNode (connect g0 (some validOpts) openFailBackend).graph
      { data := some [("id", "abc")] }).err ≠ some (.errObj NOT_CONNECTED) := by
  refine ⟨rfl, rfl, ?_⟩
  intro h
  simp [connect, saveNode, findById, g0, validOpts, openFailBackend, freshDb] at h

/-- C2 (amended): a connect that fails in the configuration checks or at
the server connect leaves `graph._db` unset, so data operations still
fail with the not-connected error; but a connect that reaches the
database open/create phase assigns `graph._db` before opening, so a
failure there leaves the handle exposed. -/
theorem connect_failure_handle_exposure
    (graph : Graph) (opts : Option ConnectOpts) (be : ConnectBackend) (node : Node)
    (h0 : graph._db = none) :
    (((opts.getD {}).server = none ∨ (opts.getD {}).db = none) →
      (connect graph opts be).graph._db = none ∧
      (saveNode (connect graph opts be).graph node).err = some (.errObj NOT_CONNECTED)) ∧
    (∀ e, be.serverConnect = some e →
      (connect graph opts be).graph._db = none ∧
      (saveNode (connect graph opts be).graph node).err = some (.errObj NOT_CONNECTED)) ∧
    ((opts.getD {}).server.isSome = true → (opts.getD {}).db.isSome = true →
      be.serverConnect = none →
      (connect graph opts be).graph._db = some be.dbHandle) := by
  refine ⟨?_, ?_, ?_⟩
  · intro h
    cases hsrv : (opts.getD {}).server with
    | none => simp [connect, hsrv, saveNode, h0]
    | some srv =>
      cases hdbo : (opts.getD {}).db with
      | none => simp [connect, hsrv, hdbo, saveNode, h0]
      | some d =>
        rw [hsrv, hdbo] at h
        simp at h
  · intro e he
    cases hsrv : (opts.getD {}).server with
    | none => simp [connect, hsrv, saveNode, h0]
    | some srv =>
      cases hdbo : (opts.getD {}).db with
      | none => simp [connect, hsrv, hdbo, saveNode, h0]
      | some d => simp [connect, hsrv, hdbo, he, saveNode, h0]
  · intro hsrv hdbo hsc
    cases hsrv2 : (opts.getD {}).server with
    | none => rw [hsrv2] at hsrv; simp at hsrv
    | some srv =>
      cases hdbo2 : (opts.getD {}).db with
      | none => rw [hdbo2] at hdbo; simp at hdbo
      | some d =>
        cases ho1 : be.openFirst with
        | none => simp [connect, hsrv2, hdbo2, hsc, ho1]
        | some e1 =>
          cases hcr : be.createDb with
          | some e2 => simp [connect, hsrv2, hdbo2, hsc, ho1, hcr]
          | none =>
            cases ho2 : be.openSecond with
            | none => simp [connect, hsrv2, hdbo2, hsc, ho1, hcr, ho2]
            | some e3 => simp [connect, hsrv2, hdbo2, hsc, ho1, hcr, ho2]

/-- A connect-time backend where the server connect itself fails. -/
def serverFailBackend : ConnectBackend :=
  { serverConnect := some (.errObj "connection refused"), openFirst := none,
    createDb := none, openSecond := none, dbHandle := freshDb }

/-- Witness for C2 (amended): a server-connect failure leaves `_db`
unset and saveNode still reports not-connected; a successful server
connect installs the handle. -/
theorem connect_failure_handle_exposure_witness :
    ((connect g0 (some validOpts) serverFailBackend).graph._db = none ∧
      (saveNode (connect g0 (some validOpts) serverFailBackend).graph
        { data := some [("id", "abc")] }).err = some (.errObj NOT_CONNECTED)) ∧
    (connect g0 (some validOpts) openFailBackend).graph._db = some openFailBackend.dbHandle :=
  ⟨(connect_failure_handle_exposure g0 (some validOpts) serverFailBackend
      { data := some [("id", "abc")] } rfl).2.1 (.errObj "connection refused") rfl,
    (connect_failure_handle_exposure g0 (some validOpts) openFailBackend
      { data := some [("id", "abc")] } rfl).2.2 rfl rfl rfl⟩

/-- C7: `connect` with options missing the `server` key fails with the
descriptive server-configuration error, and with `server` present but
`db` missing fails with the descriptive db-configuration error; in both
cases no network call is made and the graph object is untouched (no
server object is constructed). -/
theorem connect_missing_options_config_error
    (graph : Graph) (opts : Option ConnectOpts) (be : ConnectBackend) :
    ((opts.getD {}).server = none →
      (connect graph opts be).err
        = some (.errObj "server connection details required to use orientdb connector") ∧
      (connect graph opts be).events = [] ∧
      (connect graph opts be).graph = graph) ∧
    (∀ srv, (opts.getD {}).server = some srv → (opts.getD {}).db = none →
      (connect graph opts be).err
        = some (.errObj "db name, username and password require to use orientdb connector") ∧
      (connect graph opts be).events = [] ∧
      (connect graph opts be).graph = graph) := by
  constructor
  · intro h
    simp [connect, h]
  · intro srv hsrv hdbo
    simp [connect, hsrv, hdbo]

/-- Witness for C7: connecting with no options at all yields the
server-configuration error with no network events; options carrying
only a server yield the db-configuration error. -/
theorem connect_missing_options_config_error_witness :
    ((connect g0 none openFailBackend).err
        = some (.errObj "server connection details required to use orientdb connector") ∧
      (connect g0 none openFailBackend).events = [] ∧
      (connect g0 none openFailBackend).graph = g0) ∧
    ((connect g0 (some { server := some {} }) openFailBackend).err
        = some (.errObj "db name, username and password require to use orientdb connector") ∧
      (connect g0 (some { server := some {} }) openFailBackend).events = [] ∧
      (connect g0 (some { server := some {} }) openFailBackend).graph = g0) :=
  ⟨(connect_missing_options_config_error g0 none openFailBackend).1 rfl,
    (connect_missing_options_config_error g0 (some { server := some {} })
      openFailBackend).2 {} rfl rfl⟩

/-- C6 counterexample: `find` invoked on a disconnected graph with
neither id nor type completes with no error (an empty result list),
not with the not-connected error. -/
theorem disconnected_find_empty_params_succeeds :
    (find g0 {}).err = none ∧ (find g0 {}).results = some [] ∧ (find g0 {}).events = [] :=
  ⟨rfl, rfl, rfl⟩

/-- C6 (amended): every listed data operation invoked without a
connection handle completes with the not-connected error and issues no
backend command — except `find` invoked without a (truthy) id, which
completes successfully with an empty result list while still issuing no
backend command. -/
theorem disconnected_operations_fail
    (graph : Graph) (hdb : graph._db = none) :
    (∀ sp, truthy sp.id = true →
      (find graph sp).err = some (.str NOT_CONNECTED) ∧ (find graph sp).events = []) ∧
    (∀ sp, truthy sp.id = false →
      (find graph sp).err = none ∧ (find graph sp).results = some [] ∧
      (find graph sp).events = []) ∧
    (∀ id nt, (getNode graph id nt).err = some (.str NOT_CONNECTED) ∧
      (getNode graph id nt).events = []) ∧
    (∀ s t et, (getEdge graph s t et).err = some (.str NOT_CONNECTED) ∧
      (getEdge graph s t et).events = []) ∧
    (∀ node, (saveNode graph node).err = some (.errObj NOT_CONNECTED) ∧
      (saveNode graph node).events = [] ∧ (saveNode graph node).node = node) ∧
    (∀ s t ent, (saveEdge graph s t ent).err = some (.errObj NOT_CONNECTED) ∧
      (saveEdge graph s t ent).events = []) ∧
    (∀ d, (activateNodeType graph d).err = some (.str NOT_CONNECTED) ∧
      (activateNodeType graph d).events = [] ∧ (activateNodeType graph d).definition = d) ∧
    (∀ d, (activateEdgeType graph d).err = some (.str NOT_CONNECTED) ∧
      (activateEdgeType graph d).events = [] ∧ (activateEdgeType graph d).definition = d) := by
  refine ⟨?_, ?_, ?_, ?_, ?_, ?_, ?_, ?_⟩
  · intro sp hid
    by_cases ht : truthy sp.type
    · simp [find, findById, hid, ht, hdb]
    · simp [find, findById, hid, ht, hdb]
  · intro sp hid
    simp [find, hid]
  · intro id nt
    simp [getNode, getById, hdb]
  · intro s t et
    simp [getEdge, hdb]
  · intro node
    simp [saveNode, hdb]
  · intro s t ent
    simp [saveEdge, hdb]
  · intro d
    simp [activateNodeType, activateType, hdb]
  · intro d
    simp [activateEdgeType, activateType, hdb]

/-- Witness for C6 (amended): on the disconnected graph, a typed find, a
getNode, a getEdge, a saveNode, a saveEdge and a type activation all
report not-connected with no backend events. -/
theorem disconnected_operations_fail_witness :
    ((find g0 { id := some "x" }).err = some (.str NOT_CONNECTED) ∧
      (find g0 { id := some "x" }).events = []) ∧
    ((getNode g0 "x" none).err = some (.str NOT_CONNECTED)) ∧
    ((getEdge g0 {} {} none).err = some (.str NOT_CONNECTED)) ∧
    ((saveNode g0 { data := some [("id", "x")] }).err = some (.errObj NOT_CONNECTED)) ∧
    ((saveEdge g0 {} {} { data := some [] }).err = some (.errObj NOT_CONNECTED)) ∧
    ((activateNodeType g0 ⟨"Person", false⟩).err = some (.str NOT_CONNECTED)) ∧
    ((activateEdgeType g0 ⟨"Knows", false⟩).err = some (.str NOT_CONNECTED)) :=
  ⟨(disconnected_operations_fail g0 rfl).1 { id := some "x" } rfl,
    ((disconnected_operations_fail g0 rfl).2.2.1 "x" none).1,
    ((disconnected_operations_fail g0 rfl).2.2.2.1 {} {} none).1,
    ((disconnected_operations_fail g0 rfl).2.2.2.2.1 { data := some [("id", "x")] }).1,
    ((disconnected_operations_fail g0 rfl).2.2.2.2.2.1 {} {} { data := some [] }).1,
    ((disconnected_operations_fail g0 rfl).2.2.2.2.2.2.1 ⟨"Person", false⟩).1,
    ((disconnected_operations_fail g0 rfl).2.2.2.2.2.2.2 ⟨"Knows", false⟩).1⟩

/-- C4: for a `saveNode` with a live connection and data present, when
the id lookup under the node's type returns no record the rendered
statement is the `CREATE VERTEX` template over the full data mapping
(id included); when it returns an existing record the rendered
statement is the `UPDATE ... WHERE id = "<id>"` template whose
set-clause is built from the id-stripped mapping, so the id field is
excluded from it. -/
theorem saveNode_create_vs_update
    (graph : Graph) (db : Backend) (node : Node) (data : List (String × String))
    (ntype : String)
    (hdb : graph._db = some db) (hdata : node.data = some data)
    (hntype : ntype = orDefault node.type "OGraphVertex") :
    (db.exec (templates.selectById ntype (dataId data)) = .ok [] →
      (saveNode graph node).events =
        [.cmd (templates.selectById ntype (dataId data)),
         .cmd (templates.vertexCreate ntype (hashToSQLSets data))]) ∧
    (∀ r rs, db.exec (templates.selectById ntype (dataId data)) = .ok (r :: rs) →
      (saveNode graph node).events =
        [.cmd (templates.selectById ntype (dataId data)),
         .cmd (templates.update ntype (hashToSQLSets (omitKeys data ["id"])) r.id)] ∧
      "id" ∉ (omitKeys data ["id"]).map Prod.fst) := by
  subst hntype
  constructor
  · intro hexec
    simp only [saveNode, findById, hdb, hdata, Option.getD_some, hexec, omitKeys_nil]
    simp [omitKeys_nil]
    try (split <;> simp [omitKeys_nil])
  · intro r rs hexec
    refine ⟨?_, not_mem_omitKeys data "id"⟩
    simp only [saveNode, findById, hdb, hdata, Option.getD_some, hexec]
    simp
    try (split <;> simp)

/-- A node of type `Person` carrying an id and a name. -/
def personNode : Node :=
  { type := some "Person", data := some [("id", "abc"), ("name", "Ann")] }

/-- Witness for C4: saving `personNode` against a backend whose lookup
returns nothing renders the `CREATE VERTEX` statement over all data
fields. -/
theorem saveNode_create_vs_update_witness :
    (saveNode freshGraph personNode).events =
      [.cmd (templates.selectById "Person" (dataId [("id", "abc"), ("name", "Ann")])),
       .cmd (templates.vertexCreate "Person"
         (hashToSQLSets [("id", "abc"), ("name", "Ann")]))] :=
  (saveNode_create_vs_update freshGraph freshDb personNode
    [("id", "abc"), ("name", "Ann")] "Person" rfl rfl (by decide)).1 rfl

/-- C5: `find` with both id and type does a direct typed id lookup; with
an id but no type it probes `OGraphVertex` first and returns that
probe's outcome whenever it errors or yields results, querying
`OGraphEdge` only when the vertex probe succeeds with no results; with
no (truthy) id it returns an empty result list with no error and no
backend command. -/
theorem find_dispatch
    (graph : Graph) (db : Backend) (sp : SearchParams)
    (hdb : graph._db = some db) :
    (truthy sp.id = false →
      find graph sp = { err := none, results := some [], events := [] }) ∧
    (truthy sp.id = true → truthy sp.type = true →
      find graph sp = findById graph (sp.id.getD "") (sp.type.getD "")) ∧
    (truthy sp.id = true → truthy sp.type = false →
      (∀ e, db.exec (templates.selectById "OGraphVertex" (sp.id.getD "")) = .error e →
        find graph sp =
          ⟨some e, none, [.cmd (templates.selectById "OGraphVertex" (sp.id.getD ""))]⟩) ∧
      (∀ r rs, db.exec (templates.selectById "OGraphVertex" (sp.id.getD "")) = .ok (r :: rs) →
        find graph sp =
          ⟨none, some (r :: rs),
            [.cmd (templates.selectById "OGraphVertex" (sp.id.getD ""))]⟩) ∧
      (db.exec (templates.selectById "OGraphVertex" (sp.id.getD "")) = .ok [] →
        find graph sp =
          ⟨(findById graph (sp.id.getD "") "OGraphEdge").err,
            (findById graph (sp.id.getD "") "OGraphEdge").results,
            .cmd (templates.selectById "OGraphVertex" (sp.id.getD "")) ::
              (findById graph (sp.id.getD "") "OGraphEdge").events⟩)) := by
  refine ⟨?_, ?_, ?_⟩
  · intro h
    simp [find, h]
  · intro h1 h2
    simp [find, h1, h2]
  · intro h1 h2
    refine ⟨?_, ?_, ?_⟩
    · intro e hexec
      simp [find, findById, h1, h2, hdb, hexec]
    · intro r rs hexec
      simp [find, findById, h1, h2, hdb, hexec]
    · intro hexec
      simp [find, findById, h1, h2, hdb, hexec]

/-- Witness for C5: an untyped id lookup on the empty fresh backend
probes the vertex class, finds nothing, and falls through to the edge
class probe. -/
theorem find_dispatch_witness :
    find freshGraph { id := some "x" } =
      ⟨(findById freshGraph "x" "OGraphEdge").err,
        (findById freshGraph "x" "OGraphEdge").results,
        .cmd (templates.selectById "OGraphVertex" "x") ::
          (findById freshGraph "x" "OGraphEdge").events⟩ :=
  ((find_dispatch freshGraph freshDb { id := some "x" } rfl).2.2 rfl rfl).2.2 rfl

/-- C9: with a live connection and data present, `saveNode` on a node
whose `type` is absent assigns the base vertex class name to the
caller's node object in place — afterwards `node.type` is
`"OGraphVertex"` — while leaving the node's data untouched. -/
theorem saveNode_defaults_type_in_place
    (graph : Graph) (db : Backend) (node : Node) (data : List (String × String))
    (hdb : graph._db = some db) (hdata : node.data = some data)
    (htype : node.type = none) :
    (saveNode graph node).node.type = some "OGraphVertex" ∧
    (saveNode graph node).node.data = node.data := by
  have ht : orDefault node.type "OGraphVertex" = "OGraphVertex" := by
    simp [orDefault, truthy, htype]
  cases hexec : db.exec (templates.selectById "OGraphVertex" (dataId data)) with
  | error e =>
    simp [saveNode, findById, hdb, hdata, ht, hexec]
  | ok rs =>
    cases rs with
    | nil =>
      simp [saveNode, findById, hdb, hdata, ht, hexec]
      try (split <;> simp)
    | cons r rest =>
      simp [saveNode, findById, hdb, hdata, ht, hexec]
      try (split <;> simp)

/-- Witness for C9: saving a typeless node leaves the caller's node with
type `"OGraphVertex"` and its data unchanged. -/
theorem saveNode_defaults_type_in_place_witness :
    (saveNode freshGraph { data := some [("id", "abc")] }).node.type
      = some "OGraphVertex" ∧
    (saveNode freshGraph { data := some [("id", "abc")] }).node.data
      = some [("id", "abc")] :=
  saveNode_defaults_type_in_place freshGraph freshDb { data := some [("id", "abc")] }
    [("id", "abc")] rfl rfl rfl

/-- C10: `getEdge` delivers only the first element of the backend result
list to its callback while `findById` delivers the full list; and
accordingly `saveEdge` chooses update exactly when the single delivered
record is present, while `saveNode` chooses update exactly when the
delivered list's length is positive. -/
theorem single_record_vs_full_list
    (graph : Graph) (db : Backend) (hdb : graph._db = some db) :
    (∀ s t et rs,
      db.exec (templates.selectEdge (orDefault et "OGraphEdge") s.id t.id) = .ok rs →
      (getEdge graph s t et).result = rs.head? ∧ (getEdge graph s t et).err = none) ∧
    (∀ id cls rs, db.exec (templates.selectById cls id) = .ok rs →
      (findById graph id cls).results = some rs ∧ (findById graph id cls).err = none) ∧
    (∀ s t ent data rs, ent.data = some data →
      db.exec (templates.selectEdge (orDefault ent.type "OGraphEdge") s.id t.id) = .ok rs →
      (rs.head? = none →
        (saveEdge graph s t ent).events =
          [.cmd (templates.selectEdge (orDefault ent.type "OGraphEdge") s.id t.id),
           .cmd (templates.edgeCreate (orDefault ent.type "OGraphEdge")
             s.type s.id t.type t.id (hashToSQLSets data))]) ∧
      (∀ r, rs.head? = some r →
        (saveEdge graph s t ent).events =
          [.cmd (templates.selectEdge (orDefault ent.type "OGraphEdge") s.id t.id),
           .cmd (templates.update (orDefault ent.type "OGraphEdge")
             (hashToSQLSets (omitKeys data ["id"])) r.id)])) ∧
    (∀ node data rs ntype, node.data = some data →
      ntype = orDefault node.type "OGraphVertex" →
      db.exec (templates.selectById ntype (dataId data)) = .ok rs →
      (rs.length = 0 →
        (saveNode graph node).events =
          [.cmd (templates.selectById ntype (dataId data)),
           .cmd (templates.vertexCreate ntype (hashToSQLSets data))]) ∧
      (0 < rs.length →
        (saveNode graph node).events =
          [.cmd (templates.selectById ntype (dataId data)),
           .cmd (templates.update ntype (hashToSQLSets (omitKeys data ["id"]))
             ((rs.head?.map OrientRecord.id).getD ""))])) := by
  refine ⟨?_, ?_, ?_, ?_⟩
  · intro s t et rs hexec
    simp [getEdge, hdb, hexec]
  · intro id cls rs hexec
    simp [findById, hdb, hexec]
  · intro s t ent data rs hdata hexec
    constructor
    · intro hhead
      rw [List.head?_eq_none_iff] at hhead
      subst hhead
      simp [saveEdge, getEdge, hdb, hdata, hexec, omitKeys_nil]
      try (split <;> simp [omitKeys_nil])
    · intro r hhead
      cases rs with
      | nil => simp at hhead
      | cons r0 rest =>
        simp only [List.head?_cons, Option.some.injEq] at hhead
        subst hhead
        simp [saveEdge, getEdge, hdb, hdata, hexec]
        try (split <;> simp)
  · intro node data rs ntype hdata hntype hexec
    subst hntype
    constructor
    · intro hlen
      rw [List.length_eq_zero] at hlen
      subst hlen
      simp [saveNode, findById, hdb, hdata, hexec, omitKeys_nil]
      try (split <;> simp [omitKeys_nil])
    · intro hlen
      cases rs with
      | nil => simp at hlen
      | cons r0 rest =>
        simp [saveNode, findById, hdb, hdata, hexec]
        try (split <;> simp)

/-- Witness for C10: on the fresh backend (every query answers an empty
list) `getEdge` delivers no record, `findById` delivers the empty list,
and both save operations take their create branch. -/
theorem single_record_vs_full_list_witness :
    ((getEdge freshGraph {} {} none).result = ([] : List OrientRecord).head? ∧
      (getEdge freshGraph {} {} none).err = none) ∧
    ((findById freshGraph "x" "OGraphVertex").results = some [] ∧
      (findById freshGraph "x" "OGraphVertex").err = none) ∧
    (saveEdge freshGraph {} {} { data := some [("id", "e1")] }).events =
      [.cmd (templates.selectEdge "OGraphEdge" "" ""),
       .cmd (templates.edgeCreate "OGraphEdge" "" "" "" ""
         (hashToSQLSets [("id", "e1")]))] :=
  ⟨(single_record_vs_full_list freshGraph freshDb rfl).1 {} {} none [] rfl,
    (single_record_vs_full_list freshGraph freshDb rfl).2.1 "x" "OGraphVertex" [] rfl,
    ((single_record_vs_full_list freshGraph freshDb rfl).2.2.1 {} {}
      { data := some [("id", "e1")] } [("id", "e1")] [] rfl rfl).1 rfl⟩

end GraphdbOrient
